import Mathlib

/-!
Verification development for the slim-wallets storefront backend.

The embedding models the two source files of the repository:
`main.py` (HTTP handlers: style listing, upload intake, checkout pricing,
diagnostics) and `schemas.py` (the pydantic models that validate documents
on construction).  Monetary amounts are modelled as rationals and Python's
two-decimal rounding as round-half-to-even on hundredths.  Fallible code
is modelled with `Except`, and the document store as explicit state.
-/

namespace Wallets

/-- Decidable equality of `Except` values, used to evaluate the embedded
handlers on concrete inputs. -/
instance {ε α : Type} [DecidableEq ε] [DecidableEq α] :
    DecidableEq (Except ε α) := fun a b =>
  match a, b with
  | .error e1, .error e2 =>
    match decEq e1 e2 with
    | isTrue h => isTrue (by rw [h])
    | isFalse h => isFalse (fun hc => h (by injection hc))
  | .error _, .ok _ => isFalse (fun hc => Except.noConfusion hc)
  | .ok _, .error _ => isFalse (fun hc => Except.noConfusion hc)
  | .ok a1, .ok a2 =>
    match decEq a1 a2 with
    | isTrue h => isTrue (by rw [h])
    | isFalse h => isFalse (fun hc => h (by injection hc))

/-- Round a rational to the nearest integer, ties to even.  This models the
behaviour of Python's builtin `round` on the scaled value.  `Rat.floor` is
used (rather than the `Int.floor` notation) so that the definition stays
kernel-computable on concrete inputs. -/
def roundHalfEven (q : ℚ) : ℤ :=
  if q - (Rat.floor q : ℚ) < 1/2 then Rat.floor q
  else if 1/2 < q - (Rat.floor q : ℚ) then Rat.floor q + 1
  else if Rat.floor q % 2 = 0 then Rat.floor q else Rat.floor q + 1

/-- Round a rational to two decimal places, ties to even: the model of
Python's `round(x, 2)`. -/
def round2 (q : ℚ) : ℚ := (roundHalfEven (q * 100) : ℚ) / 100

/-- Cart item as parsed by the endpoint (`CartItemIn` in `main.py`);
note it carries no lower bound on `quantity`. -/
structure CartItemIn where
  product_id : String
  quantity : ℤ := 1
  finish : Option String := none
  engraving_text : Option String := none
  upload_id : Option String := none
  deriving DecidableEq, Repr

/-- Customer payload (`CustomerIn` in `main.py`, same shape as
`schemas.Customer`). -/
structure CustomerIn where
  name : String
  email : String
  address_line1 : String
  address_line2 : Option String := none
  city : String
  state : String
  postal_code : String
  country : String
  deriving DecidableEq, Repr

/-- Checkout request body (`CheckoutIn` in `main.py`). -/
structure CheckoutIn where
  items : List CartItemIn
  customer : CustomerIn
  deriving DecidableEq, Repr

/-- A raw catalog document as returned by `db["walletstyle"].find_one`:
`checkout` only reads `title` and `price`, each with `.get` defaults, so
both are optional here. -/
structure ProductDoc where
  title : Option String := none
  price : Option ℚ := none
  deriving DecidableEq, Repr

/-- The catalog: what `find_one` on the walletstyle collection returns for
each product id (`none` models a missing document). -/
abbrev Catalog : Type := String → Option ProductDoc

/-- One entry of the in-memory `items_full` list built by the checkout
loop in `main.py`. -/
structure LineItemFull where
  product_id : String
  title : Option String
  price_each : ℚ
  quantity : ℤ
  finish : Option String
  engraving_text : Option String
  upload_id : Option String
  deriving DecidableEq, Repr

/-- A stored order line after pydantic validation against
`schemas.CartItem` (which has no `title` or `price_each` field: pydantic
drops the extra keys of the `items_full` dicts). -/
structure CartItem where
  product_id : String
  quantity : ℤ
  finish : Option String
  engraving_text : Option String
  upload_id : Option String
  deriving DecidableEq, Repr

/-- The persisted order document (`schemas.Order`). -/
structure Order where
  items : List CartItem
  customer : CustomerIn
  subtotal : ℚ
  shipping : ℚ
  total : ℚ
  status : String
  notes : Option String := none
  deriving DecidableEq, Repr

/-- Errors a checkout can surface: the explicit 404 raised for a missing
product, and the 400 wrapping any other exception (in particular pydantic
validation errors at `Order` construction). -/
inductive CheckoutErr where
  | notFound (product_id : String)
  | badRequest (detail : String)
  deriving DecidableEq, Repr

/-- The HTTP detail string attached to each checkout error in `main.py`. -/
def CheckoutErr.detail : CheckoutErr → String
  | .notFound pid => "Product not found: " ++ pid
  | .badRequest d => d

/-- Body of the successful checkout response (order id is generated by the
store write, modelled separately in `runCheckout`). -/
structure CheckoutResp where
  status : String
  amount : ℚ
  deriving DecidableEq, Repr

/-- The accumulation loop of `checkout` in `main.py`: walk the cart in
input order, look each product up, build the `items_full` entry and add
`price * quantity` into the running subtotal; abort with 404 at the first
missing product. -/
def resolveLoop (catalog : Catalog) :
    List CartItemIn → Except CheckoutErr (List LineItemFull × ℚ)
  | [] => .ok ([], 0)
  | item :: rest =>
    match catalog item.product_id with
    | none => .error (.notFound item.product_id)
    | some prod =>
      match resolveLoop catalog rest with
      | .error e => .error e
      | .ok (lines, sub) =>
        .ok ({ product_id := item.product_id
               title := prod.title
               price_each := prod.price.getD 0
               quantity := item.quantity
               finish := item.finish
               engraving_text := item.engraving_text
               upload_id := item.upload_id } :: lines,
             prod.price.getD 0 * (item.quantity : ℚ) + sub)

/-- Pydantic validation of one `items_full` dict against `schemas.CartItem`
(field `quantity` carries `ge=1`; the extra `title` and `price_each` keys
are dropped). -/
def validateCartItem (li : LineItemFull) : Except String CartItem :=
  if li.quantity < 1 then
    .error "Input should be greater than or equal to 1"
  else
    .ok { product_id := li.product_id
          quantity := li.quantity
          finish := li.finish
          engraving_text := li.engraving_text
          upload_id := li.upload_id }

/-- Validate every line of `items_full` in order. -/
def validateItems : List LineItemFull → Except String (List CartItem)
  | [] => .ok []
  | li :: rest =>
    match validateCartItem li with
    | .error e => .error e
    | .ok c =>
      match validateItems rest with
      | .error e => .error e
      | .ok cs => .ok (c :: cs)

/-- Construction of the `Order` pydantic model in `main.py`: validates the
lines against `schemas.CartItem` and the `ge=0` bounds on subtotal,
shipping and total; a failure surfaces as a `ValidationError`. -/
def mkOrder (lines : List LineItemFull) (customer : CustomerIn)
    (subtotal shipping total : ℚ) : Except String Order :=
  match validateItems lines with
  | .error e => .error e
  | .ok items =>
    if subtotal < 0 then .error "Input should be greater than or equal to 0"
    else if shipping < 0 then .error "Input should be greater than or equal to 0"
    else if total < 0 then .error "Input should be greater than or equal to 0"
    else .ok { items := items
               customer := customer
               subtotal := subtotal
               shipping := shipping
               total := total
               status := "pending" }

/-- The checkout handler of `main.py`: resolve and price the cart, compute
shipping and the rounded totals, and build the order document with status
"pending".  The store write itself is modelled by `runCheckout`. -/
def checkout (catalog : Catalog) (payload : CheckoutIn) :
    Except CheckoutErr (Order × CheckoutResp) :=
  match resolveLoop catalog payload.items with
  | .error e => .error e
  | .ok (lines, subtotal) =>
    let shipping : ℚ := if subtotal < 75 then 5 else 0
    let total : ℚ := round2 (subtotal + shipping)
    match mkOrder lines payload.customer (round2 subtotal) shipping total with
    | .error msg => .error (.badRequest msg)
    | .ok order => .ok (order, { status := "pending", amount := total })

/-- The store effect of one checkout call: `create_document("order", ...)`
runs only after the whole computation succeeded, so on any error the order
collection is unchanged. -/
def runCheckout (store : List Order) (catalog : Catalog) (payload : CheckoutIn) :
    List Order × Except CheckoutErr CheckoutResp :=
  match checkout catalog payload with
  | .error e => (store, .error e)
  | .ok (o, resp) => (store ++ [o], .ok resp)

/-- Unit price used for a product id: the catalog price with the `.get`
default of `0` when the document or its price field is missing. -/
def unitPrice (catalog : Catalog) (pid : String) : ℚ :=
  match catalog pid with
  | some p => p.price.getD 0
  | none => 0

/-- Raw (unrounded) subtotal of a cart: sum of catalog unit price times
quantity over the items. -/
def rawSubtotal (catalog : Catalog) (items : List CartItemIn) : ℚ :=
  (items.map (fun i => unitPrice catalog i.product_id * (i.quantity : ℚ))).sum

/-- The `items_full` entry the loop builds for a found product. -/
def toLine (catalog : Catalog) (i : CartItemIn) : LineItemFull :=
  { product_id := i.product_id
    title := (catalog i.product_id).bind (·.title)
    price_each := unitPrice catalog i.product_id
    quantity := i.quantity
    finish := i.finish
    engraving_text := i.engraving_text
    upload_id := i.upload_id }

/-! Upload intake: `upload_art` in `main.py` base64-encodes the payload and
stores filename, content type, byte count and the encoded text.  Bytes are
naturals below 256 and the encoded text is its character list. -/

/-- The standard base64 alphabet used by Python `base64.b64encode`. -/
def b64Alphabet : List Char :=
  ['A', 'B', 'C', 'D', 'E', 'F', 'G', 'H', 'I', 'J', 'K', 'L', 'M',
   'N', 'O', 'P', 'Q', 'R', 'S', 'T', 'U', 'V', 'W', 'X', 'Y', 'Z',
   'a', 'b', 'c', 'd', 'e', 'f', 'g', 'h', 'i', 'j', 'k', 'l', 'm',
   'n', 'o', 'p', 'q', 'r', 's', 't', 'u', 'v', 'w', 'x', 'y', 'z',
   '0', '1', '2', '3', '4', '5', '6', '7', '8', '9', '+', '/']

/-- Character for a 6-bit group. -/
def b64Char (n : ℕ) : Char := b64Alphabet.getD n 'A'

/-- Index of a character in the base64 alphabet. -/
def b64Index (c : Char) : Option ℕ := b64Alphabet.findIdx? (fun a => a == c)

/-- Standard padded base64 encoding of a byte sequence, three bytes to four
characters. -/
def b64encode : List ℕ → List Char
  | [] => []
  | [a] => [b64Char (a / 4), b64Char (a % 4 * 16), '=', '=']
  | [a, b] => [b64Char (a / 4), b64Char (a % 4 * 16 + b / 16),
               b64Char (b % 16 * 4), '=']
  | a :: b :: c :: rest =>
    b64Char (a / 4) :: b64Char (a % 4 * 16 + b / 16) ::
    b64Char (b % 16 * 4 + c / 64) :: b64Char (c % 64) :: b64encode rest

/-- Standard base64 decoding, four characters to three bytes, honouring the
padding of the final quantum. -/
def b64decode : List Char → Option (List ℕ)
  | [] => some []
  | c1 :: c2 :: c3 :: c4 :: rest =>
    match b64Index c1, b64Index c2 with
    | some n1, some n2 =>
      if c3 = '=' then
        if c4 = '=' ∧ rest = [] then some [n1 * 4 + n2 / 16] else none
      else
        match b64Index c3 with
        | some n3 =>
          if c4 = '=' then
            if rest = [] then
              some [n1 * 4 + n2 / 16, n2 % 16 * 16 + n3 / 4]
            else none
          else
            match b64Index c4, b64decode rest with
            | some n4, some bs =>
              some ((n1 * 4 + n2 / 16) :: (n2 % 16 * 16 + n3 / 4) ::
                    (n3 % 4 * 64 + n4) :: bs)
            | _, _ => none
        | none => none
    | _, _ => none
  | _ => none

/-- The stored upload record (`schemas.Upload`). -/
structure Upload where
  filename : String
  content_type : String
  size : ℕ
  data_b64 : List Char
  deriving DecidableEq, Repr

/-- The upload handler of `main.py`: read the whole payload, encode it,
and store one record; the declared content type defaults to the generic
octet-stream marker. -/
def upload_art (filename : String) (content_type : Option String)
    (content : List ℕ) : Upload :=
  { filename := filename
    content_type := content_type.getD "application/octet-stream"
    size := content.length
    data_b64 := b64encode content }

/-! Style catalog: `list_styles` in `main.py` seeds three fixed defaults
when the collection is empty and projects each internal `_id` to a string
`id` field. -/

/-- Catalog entry as stored (`schemas.WalletStyle`), with the pydantic
defaults of that model. -/
structure WalletStyle where
  title : String
  description : Option String := none
  price : ℚ
  images : List String := []
  finishes : List String := ["Matte Black", "Gunmetal", "Silver"]
  in_stock : Bool := true
  deriving DecidableEq, Repr

/-- The three seed styles of `list_styles` in `main.py`. -/
def seedStyles : List WalletStyle :=
  [{ title := "Carbon Fiber Slim Wallet"
     description := some "Durable carbon fiber plates with RFID blocking."
     price := 59
     images := ["https://images.unsplash.com/photo-1585386959984-a4155223162d?auto=format&fit=crop&w=1200&q=60"]
     finishes := ["Matte Black", "Gunmetal", "Silver"] },
   { title := "Aluminum Slim Wallet"
     description := some "Lightweight anodized aluminum construction."
     price := 49
     images := ["https://images.unsplash.com/photo-1512496015851-a90fb38ba796?auto=format&fit=crop&w=1200&q=60"]
     finishes := ["Matte Black", "Navy", "Forest"] },
   { title := "Titanium Slim Wallet"
     description := some "Premium titanium with sleek edges."
     price := 89
     images := ["https://images.unsplash.com/photo-1562184552-1e86cae0b2d9?auto=format&fit=crop&w=1200&q=60"]
     finishes := ["Raw", "Stonewash", "Black Ti"] }]

/-- The walletstyle collection: documents keyed by their internal ObjectId
(modelled as a natural), plus the next id the store will generate. -/
structure StyleStore where
  docs : List (ℕ × WalletStyle)
  nextId : ℕ
  deriving DecidableEq, Repr

/-- Model of `create_document("walletstyle", s)`: append the document under
a fresh internal id and return its string form. -/
def create_document (s : StyleStore) (w : WalletStyle) : StyleStore × String :=
  ({ docs := s.docs ++ [(s.nextId, w)], nextId := s.nextId + 1 },
   toString s.nextId)

/-- Model of `get_documents("walletstyle")`. -/
def get_documents (s : StyleStore) : List (ℕ × WalletStyle) := s.docs

/-- The seeding loop of `list_styles`: one `create_document` per seed, in
order. -/
def seedLoop (s : StyleStore) : List WalletStyle → StyleStore
  | [] => s
  | w :: ws => seedLoop (create_document s w).1 ws

/-- A returned style record: the stored fields with the internal id
projected to a string `id` field (the record type has no raw internal-id
field, modelling the `s.pop` of the untranslated `_id`). -/
structure StyleOut where
  id : String
  title : String
  description : Option String
  price : ℚ
  images : List String
  finishes : List String
  in_stock : Bool
  deriving DecidableEq, Repr

/-- Projection applied to each returned document in `list_styles`:
`s["id"] = str(s.pop("_id"))`. -/
def projectStyle (p : ℕ × WalletStyle) : StyleOut :=
  { id := toString p.1
    title := p.2.title
    description := p.2.description
    price := p.2.price
    images := p.2.images
    finishes := p.2.finishes
    in_stock := p.2.in_stock }

/-- The `list_styles` handler of `main.py`: read the collection, seed the
three defaults when it is empty, re-read, and return the projected
records together with the resulting store state. -/
def list_styles (s : StyleStore) : StyleStore × List StyleOut :=
  let styles := get_documents s
  let s2 := if styles.isEmpty then seedLoop s seedStyles else s
  ((s2), (get_documents s2).map projectStyle)

/-! Diagnostics: `test_database` in `main.py`.  The database handle and its
only fallible operation are explicit state; the handler is a total
function, every failure being turned into a degraded-status string. -/

/-- The ambient database handle as far as the diagnostics endpoint reads
it: presence of the two environment variables and the outcome of
`list_collection_names` (which may fail). -/
structure DBHandle where
  url_env_set : Bool
  name_env_set : Bool
  collection_names : Except String (List String)
  deriving Repr

/-- The JSON body built by the `/test` handler. -/
structure DiagResponse where
  backend : String
  database : String
  database_url : Option String
  database_name : Option String
  connection_status : String
  collections : List String
  deriving DecidableEq, Repr

/-- The `test_database` handler: start from the degraded defaults, upgrade
the fields the connected branch reaches, and swallow a
`list_collection_names` failure (the inner bare `except: pass`), leaving
`collections` at its default. -/
def test_database (db : Option DBHandle) : DiagResponse :=
  let response : DiagResponse :=
    { backend := "✅ Running"
      database := "❌ Not Available"
      database_url := none
      database_name := none
      connection_status := "Not Connected"
      collections := [] }
  match db with
  | none => response
  | some h =>
    let r1 := { response with
      database := "✅ Connected"
      database_url := some (if h.url_env_set then "✅ Set" else "❌ Not Set")
      database_name := some (if h.name_env_set then "✅ Set" else "❌ Not Set") }
    match h.collection_names with
    | .ok cols => { r1 with collections := cols }
    | .error _ => r1

/-! Concrete fixtures used by witnesses and counterexamples. -/

/-- A concrete customer payload. -/
def exCustomer : CustomerIn :=
  { name := "Ada"
    email := "ada@example.com"
    address_line1 := "1 Main St"
    city := "Springfield"
    state := "IL"
    postal_code := "62701"
    country := "US" }

/-- A one-product catalog: the carbon style at price 59. -/
def cat59 : Catalog := fun pid =>
  if pid = "carbon" then
    some { title := some "Carbon Fiber Slim Wallet", price := some 59 }
  else none

/-- A cart with one carbon wallet at the default quantity 1. -/
def payload59 : CheckoutIn :=
  { items := [{ product_id := "carbon" }], customer := exCustomer }

/-- The order the code writes for `payload59` against `cat59`. -/
def order59 : Order :=
  { items := [{ product_id := "carbon", quantity := 1, finish := none,
                engraving_text := none, upload_id := none }]
    customer := exCustomer
    subtotal := 59
    shipping := 5
    total := 64
    status := "pending" }

/-- A cart holding the carbon wallet at quantity 0. -/
def payloadQty0 : CheckoutIn :=
  { items := [{ product_id := "carbon", quantity := 0 }], customer := exCustomer }

/-- A cart whose only item references an id absent from `cat59`. -/
def payloadGhost : CheckoutIn :=
  { items := [{ product_id := "ghost" }], customer := exCustomer }

/-- A catalog whose single document has no price field. -/
def catNoPrice : Catalog := fun pid =>
  if pid = "mystery" then some { title := some "Mystery Wallet" } else none

/-- A cart with one item referencing the price-less document. -/
def payloadNoPrice : CheckoutIn :=
  { items := [{ product_id := "mystery" }], customer := exCustomer }

/-- The stored shape of an `items_full` entry: pydantic keeps exactly the
`schemas.CartItem` fields and drops the extra `title` and `price_each`
keys. -/
def dropExtras (li : LineItemFull) : CartItem :=
  { product_id := li.product_id
    quantity := li.quantity
    finish := li.finish
    engraving_text := li.engraving_text
    upload_id := li.upload_id }

/-! Helper lemmas: rounding. -/

theorem ratFloor_eq_floor (q : ℚ) : (Rat.floor q : ℤ) = ⌊q⌋ := by
  rw [Rat.floor_def', Rat.floor_def]

theorem roundHalfEven_intCast (n : ℤ) : roundHalfEven (n : ℚ) = n := by
  unfold roundHalfEven
  simp only [ratFloor_eq_floor, Int.floor_intCast]
  norm_num

theorem roundHalfEven_add_int_even (q : ℚ) (n : ℤ) (hn : n % 2 = 0) :
    roundHalfEven (q + (n : ℚ)) = roundHalfEven q + n := by
  unfold roundHalfEven
  simp only [ratFloor_eq_floor, Int.floor_add_int]
  have hfrac : q + (n : ℚ) - ((⌊q⌋ + n : ℤ) : ℚ) = q - (⌊q⌋ : ℚ) := by
    push_cast
    ring
  rw [hfrac]
  split_ifs <;> omega

theorem round2_add_five (q : ℚ) : round2 (q + 5) = round2 q + 5 := by
  unfold round2
  have h : (q + 5) * 100 = q * 100 + ((500 : ℤ) : ℚ) := by
    push_cast
    ring
  rw [h, roundHalfEven_add_int_even _ 500 (by decide)]
  push_cast
  ring

theorem round2_int_div (n : ℤ) : round2 ((n : ℚ) / 100) = (n : ℚ) / 100 := by
  unfold round2
  have h : (n : ℚ) / 100 * 100 = (n : ℚ) := by
    field_simp
  rw [h, roundHalfEven_intCast]

theorem round2_round2 (q : ℚ) : round2 (round2 q) = round2 q := by
  rw [show round2 q = ((roundHalfEven (q * 100) : ℚ) / 100) from rfl]
  exact round2_int_div _

theorem round2_nonneg (q : ℚ) (h : 0 ≤ q) : 0 ≤ round2 q := by
  have h100 : (0 : ℚ) ≤ q * 100 := by positivity
  have hfl : 0 ≤ roundHalfEven (q * 100) := by
    unfold roundHalfEven
    simp only [ratFloor_eq_floor]
    have hz : (0 : ℤ) ≤ ⌊q * 100⌋ := Int.floor_nonneg.mpr h100
    split_ifs <;> omega
  have hq : (0 : ℚ) ≤ (roundHalfEven (q * 100) : ℚ) := by
    exact_mod_cast hfl
  unfold round2
  positivity

/-! Helper lemmas: the checkout accumulation loop. -/

theorem resolveLoop_all_found (catalog : Catalog) :
    ∀ items : List CartItemIn,
      (∀ i ∈ items, (catalog i.product_id).isSome) →
      resolveLoop catalog items =
        .ok (items.map (toLine catalog), rawSubtotal catalog items) := by
  intro items
  induction items with
  | nil =>
    intro _
    simp [resolveLoop, rawSubtotal]
  | cons head tail ih =>
    intro h
    have hhead : (catalog head.product_id).isSome := h head (by simp)
    obtain ⟨prod, hprod⟩ := Option.isSome_iff_exists.mp hhead
    have htail := ih (fun i hi => h i (by simp [hi]))
    simp only [resolveLoop, hprod, htail, List.map_cons]
    simp [rawSubtotal, toLine, unitPrice, hprod]

theorem resolveLoop_ok_all_found (catalog : Catalog) :
    ∀ (items : List CartItemIn) (lines : List LineItemFull) (sub : ℚ),
      resolveLoop catalog items = .ok (lines, sub) →
      ∀ i ∈ items, (catalog i.product_id).isSome := by
  intro items
  induction items with
  | nil =>
    intro lines sub _ i hi
    simp at hi
  | cons head tail ih =>
    intro lines sub h i hi
    rcases hc : catalog head.product_id with _ | prod
    · rw [resolveLoop, hc] at h
      simp at h
    · rcases List.mem_cons.mp hi with rfl | hmem
      · simp [hc]
      · rw [resolveLoop, hc] at h
        rcases hr : resolveLoop catalog tail with e | val
        · rw [hr] at h
          simp at h
        · exact ih val.1 val.2 hr i hmem

theorem resolveLoop_missing (catalog : Catalog) :
    ∀ items : List CartItemIn,
      (∃ i ∈ items, catalog i.product_id = none) →
      ∃ pid, catalog pid = none ∧
        pid ∈ items.map (fun i => i.product_id) ∧
        resolveLoop catalog items = .error (.notFound pid) := by
  intro items
  induction items with
  | nil =>
    intro h
    simp at h
  | cons head tail ih =>
    intro h
    rcases hc : catalog head.product_id with _ | prod
    · exact ⟨head.product_id, hc, by simp, by rw [resolveLoop, hc]⟩
    · have htail : ∃ i ∈ tail, catalog i.product_id = none := by
        obtain ⟨i, hi, hnone⟩ := h
        rcases List.mem_cons.mp hi with rfl | hmem
        · rw [hc] at hnone
          exact absurd hnone (by simp)
        · exact ⟨i, hmem, hnone⟩
      obtain ⟨pid, hnone, hmem, herr⟩ := ih htail
      refine ⟨pid, hnone, by simp [hmem], ?_⟩
      rw [resolveLoop, hc, herr]

/-! Helper lemmas: pydantic validation at `Order` construction. -/

theorem validateItems_ok (lines : List LineItemFull)
    (h : ∀ li ∈ lines, 1 ≤ li.quantity) :
    validateItems lines = .ok (lines.map dropExtras) := by
  induction lines with
  | nil => simp [validateItems]
  | cons head tail ih =>
    have hh : ¬head.quantity < 1 := by
      have := h head (by simp)
      omega
    have htail := ih (fun li hli => h li (by simp [hli]))
    simp [validateItems, validateCartItem, hh, htail, dropExtras]

theorem validateItems_err (lines : List LineItemFull)
    (h : ∃ li ∈ lines, li.quantity < 1) :
    ∃ msg, validateItems lines = .error msg := by
  induction lines with
  | nil =>
    simp at h
  | cons head tail ih =>
    by_cases hh : head.quantity < 1
    · exact ⟨"Input should be greater than or equal to 1",
        by simp [validateItems, validateCartItem, hh]⟩
    · have htail : ∃ li ∈ tail, li.quantity < 1 := by
        obtain ⟨li, hli, hlt⟩ := h
        rcases List.mem_cons.mp hli with rfl | hmem
        · exact absurd hlt hh
        · exact ⟨li, hmem, hlt⟩
      obtain ⟨msg, hmsg⟩ := ih htail
      refine ⟨msg, ?_⟩
      simp [validateItems, validateCartItem, hh, hmsg]

theorem mkOrder_ok (lines : List LineItemFull) (cust : CustomerIn)
    (s sh t : ℚ) (hq : ∀ li ∈ lines, 1 ≤ li.quantity)
    (hs : 0 ≤ s) (hsh : 0 ≤ sh) (ht : 0 ≤ t) :
    mkOrder lines cust s sh t =
      .ok { items := lines.map dropExtras, customer := cust, subtotal := s,
            shipping := sh, total := t, status := "pending" } := by
  unfold mkOrder
  rw [validateItems_ok lines hq]
  simp [not_lt.mpr hs, not_lt.mpr hsh, not_lt.mpr ht]

theorem mkOrder_err (lines : List LineItemFull) (cust : CustomerIn)
    (s sh t : ℚ) (h : ∃ li ∈ lines, li.quantity < 1) :
    ∃ msg, mkOrder lines cust s sh t = .error msg := by
  obtain ⟨msg, hmsg⟩ := validateItems_err lines h
  refine ⟨msg, ?_⟩
  unfold mkOrder
  rw [hmsg]

theorem mkOrder_ok_fields (lines : List LineItemFull) (cust : CustomerIn)
    (s sh t : ℚ) (o : Order) (h : mkOrder lines cust s sh t = .ok o) :
    o.subtotal = s ∧ o.shipping = sh ∧ o.total = t ∧
      o.status = "pending" ∧ o.customer = cust := by
  unfold mkOrder at h
  rcases hv : validateItems lines with e | items
  · rw [hv] at h
    simp at h
  · rw [hv] at h
    split_ifs at h with h1 h2 h3
    cases h
    exact ⟨rfl, rfl, rfl, rfl, rfl⟩

/-! Helper lemmas: the checkout handler. -/

theorem checkout_ok_spec (catalog : Catalog) (payload : CheckoutIn)
    (order : Order) (resp : CheckoutResp)
    (h : checkout catalog payload = .ok (order, resp)) :
    order.subtotal = round2 (rawSubtotal catalog payload.items) ∧
    order.shipping =
      (if rawSubtotal catalog payload.items < 75 then (5 : ℚ) else 0) ∧
    order.total = round2 (rawSubtotal catalog payload.items + order.shipping) ∧
    order.status = "pending" ∧ resp.status = "pending" ∧
    resp.amount = order.total := by
  unfold checkout at h
  rcases hres : resolveLoop catalog payload.items with e | ⟨lines, sub⟩
  · rw [hres] at h
    exact absurd h (by simp)
  · have hfound := resolveLoop_ok_all_found catalog payload.items lines sub hres
    have heq := resolveLoop_all_found catalog payload.items hfound
    rw [hres] at heq
    have hpair := Except.ok.inj heq
    have hsub : sub = rawSubtotal catalog payload.items := congrArg Prod.snd hpair
    rw [hres] at h
    simp only [] at h
    rcases hmk : mkOrder lines payload.customer (round2 sub)
        (if sub < 75 then (5 : ℚ) else 0)
        (round2 (sub + if sub < 75 then (5 : ℚ) else 0)) with msg | o
    · rw [hmk] at h
      exact absurd h (by simp)
    · rw [hmk] at h
      simp only [Except.ok.injEq, Prod.mk.injEq] at h
      obtain ⟨ho, hresp⟩ := h
      obtain ⟨hf1, hf2, hf3, hf4, hf5⟩ :=
        mkOrder_ok_fields _ _ _ _ _ _ hmk
      subst ho
      subst hsub
      refine ⟨hf1, hf2, ?_, hf4, ?_, ?_⟩
      · rw [hf3, hf2]
      · rw [← hresp]
      · rw [← hresp, hf3]

theorem checkout_ok_of_valid (catalog : Catalog) (payload : CheckoutIn)
    (hfound : ∀ i ∈ payload.items, (catalog i.product_id).isSome)
    (hqty : ∀ i ∈ payload.items, 1 ≤ i.quantity)
    (hprice : ∀ i ∈ payload.items, 0 ≤ unitPrice catalog i.product_id) :
    checkout catalog payload =
      .ok ({ items := (payload.items.map (toLine catalog)).map dropExtras,
             customer := payload.customer,
             subtotal := round2 (rawSubtotal catalog payload.items),
             shipping :=
               (if rawSubtotal catalog payload.items < 75 then 5 else 0),
             total := round2 (rawSubtotal catalog payload.items +
               (if rawSubtotal catalog payload.items < 75 then 5 else 0)),
             status := "pending" },
           { status := "pending",
             amount := round2 (rawSubtotal catalog payload.items +
               (if rawSubtotal catalog payload.items < 75 then 5 else 0)) }) := by
  have hraw : 0 ≤ rawSubtotal catalog payload.items := by
    unfold rawSubtotal
    apply List.sum_nonneg
    intro x hx
    simp only [List.mem_map] at hx
    obtain ⟨i, hi, rfl⟩ := hx
    have h1 := hprice i hi
    have h2 : (1 : ℚ) ≤ (i.quantity : ℚ) := by
      exact_mod_cast hqty i hi
    exact mul_nonneg h1 (le_trans zero_le_one h2)
  have hsh : 0 ≤ (if rawSubtotal catalog payload.items < 75 then (5 : ℚ) else 0) := by
    split_ifs <;> norm_num
  have hq2 : ∀ li ∈ payload.items.map (toLine catalog), 1 ≤ li.quantity := by
    intro li hli
    simp only [List.mem_map] at hli
    obtain ⟨i, hi, rfl⟩ := hli
    exact hqty i hi
  unfold checkout
  rw [resolveLoop_all_found catalog payload.items hfound]
  simp only []
  rw [mkOrder_ok (payload.items.map (toLine catalog)) payload.customer _ _ _
    hq2 (round2_nonneg _ hraw) hsh (round2_nonneg _ (add_nonneg hraw hsh))]

/-! Helper lemmas: base64. -/

theorem b64Index_b64Char (n : ℕ) (h : n < 64) : b64Index (b64Char n) = some n := by
  have hall : ∀ m, m < 64 → b64Index (b64Char m) = some m := by decide
  exact hall n h

theorem b64Char_ne_pad (n : ℕ) (h : n < 64) : b64Char n ≠ '=' := by
  have hall : ∀ m, m < 64 → b64Char m ≠ '=' := by decide
  exact hall n h

theorem b64decode_b64encode :
    ∀ bytes : List ℕ, (∀ b ∈ bytes, b < 256) →
      b64decode (b64encode bytes) = some bytes := by
  intro bytes
  induction bytes using b64encode.induct with
  | case1 =>
    intro _
    rfl
  | case2 a =>
    intro h
    have ha : a < 256 := h a (by simp)
    have h1 := b64Index_b64Char (a / 4) (by omega)
    have h2 := b64Index_b64Char (a % 4 * 16) (by omega)
    simp [b64encode, b64decode, h1, h2]
    omega
  | case3 a b =>
    intro h
    have ha : a < 256 := h a (by simp)
    have hb : b < 256 := h b (by simp)
    have h1 := b64Index_b64Char (a / 4) (by omega)
    have h2 := b64Index_b64Char (a % 4 * 16 + b / 16) (by omega)
    have h3 := b64Index_b64Char (b % 16 * 4) (by omega)
    have hne := b64Char_ne_pad (b % 16 * 4) (by omega)
    simp [b64encode, b64decode, h1, h2, h3, hne]
    omega
  | case4 a b c rest ih =>
    intro h
    have ha : a < 256 := h a (by simp)
    have hb : b < 256 := h b (by simp)
    have hc : c < 256 := h c (by simp)
    have hrest := ih (fun x hx => h x (by simp [hx]))
    have h1 := b64Index_b64Char (a / 4) (by omega)
    have h2 := b64Index_b64Char (a % 4 * 16 + b / 16) (by omega)
    have h3 := b64Index_b64Char (b % 16 * 4 + c / 64) (by omega)
    have h4 := b64Index_b64Char (c % 64) (by omega)
    have hne3 := b64Char_ne_pad (b % 16 * 4 + c / 64) (by omega)
    have hne4 := b64Char_ne_pad (c % 64) (by omega)
    simp [b64encode, b64decode, h1, h2, h3, h4, hne3, hne4, hrest]
    omega

/-! Claim theorems. -/

/-- C1: for every checkout that succeeds, with raw the sum over cart items
of catalog unit price times quantity, the stored order's subtotal is
`round2 raw`, its shipping is 5 when `raw < 75` and 0 otherwise, and its
total is `round2` of the unrounded raw subtotal plus shipping — a second
independent rounding, not computed from the already-rounded stored
subtotal. -/
theorem checkout_two_stage_rounding (catalog : Catalog) (payload : CheckoutIn)
    (order : Order) (resp : CheckoutResp)
    (h : checkout catalog payload = .ok (order, resp)) :
    order.subtotal = round2 (rawSubtotal catalog payload.items) ∧
    order.shipping =
      (if rawSubtotal catalog payload.items < 75 then (5 : ℚ) else 0) ∧
    order.total = round2 (rawSubtotal catalog payload.items +
      (if rawSubtotal catalog payload.items < 75 then (5 : ℚ) else 0)) := by
  obtain ⟨h1, h2, h3, _⟩ := checkout_ok_spec catalog payload order resp h
  refine ⟨h1, h2, ?_⟩
  rw [h3, h2]

/-- C2: when some cart item's product id is absent from the catalog, the
whole checkout aborts with a not-found error carrying a missing product id
in its detail message, and the order collection is left unchanged (no
partial persistence). -/
theorem checkout_missing_product_aborts (catalog : Catalog)
    (payload : CheckoutIn)
    (h : ∃ i ∈ payload.items, catalog i.product_id = none) :
    ∃ pid, catalog pid = none ∧
      pid ∈ payload.items.map (fun i => i.product_id) ∧
      checkout catalog payload = .error (.notFound pid) ∧
      (CheckoutErr.notFound pid).detail = "Product not found: " ++ pid ∧
      ∀ store : List Order,
        runCheckout store catalog payload = (store, .error (.notFound pid)) := by
  obtain ⟨pid, hnone, hmem, herr⟩ := resolveLoop_missing catalog payload.items h
  have hch : checkout catalog payload = .error (.notFound pid) := by
    unfold checkout
    rw [herr]
  refine ⟨pid, hnone, hmem, hch, rfl, fun store => ?_⟩
  unfold runCheckout
  rw [hch]

/-- C3: for every checkout that succeeds (a valid cart with no missing
product ids), the total also equals `round2` of the already-rounded stored
subtotal plus shipping, with shipping 5 exactly when the raw subtotal is
below 75; in the exact-rational model the two-stage rounding and this
formulation agree because shipping is a whole multiple of a cent. -/
theorem checkout_total_from_rounded_subtotal (catalog : Catalog)
    (payload : CheckoutIn) (order : Order) (resp : CheckoutResp)
    (h : checkout catalog payload = .ok (order, resp)) :
    order.shipping =
      (if rawSubtotal catalog payload.items < 75 then (5 : ℚ) else 0) ∧
    order.total = round2 (round2 (rawSubtotal catalog payload.items) +
      order.shipping) := by
  obtain ⟨h1, h2, h3, _⟩ := checkout_ok_spec catalog payload order resp h
  refine ⟨h2, ?_⟩
  rw [h3, h2]
  by_cases hc : rawSubtotal catalog payload.items < 75
  · rw [if_pos hc, round2_add_five, round2_add_five, round2_round2]
  · rw [if_neg hc, add_zero, add_zero, round2_round2]

/-- C6: an upload of N bytes stores a record whose declared size is N and
whose stored base64 payload decodes back to exactly the original bytes. -/
theorem upload_size_and_b64_roundtrip (filename : String)
    (content_type : Option String) (content : List ℕ)
    (h : ∀ b ∈ content, b < 256) :
    (upload_art filename content_type content).size = content.length ∧
    b64decode (upload_art filename content_type content).data_b64 =
      some content :=
  ⟨rfl, b64decode_b64encode content h⟩

/-- C7 (amended): the pricing loop itself performs no quantity bound
check — with every product found it resolves every line and accumulates
`price * quantity` whatever the quantity's sign — but when some quantity
is below 1 the pydantic validation of `schemas.CartItem` at `Order`
construction rejects the order, so the checkout aborts with a 400 error
rather than completing. -/
theorem quantity_checked_only_at_order_validation (catalog : Catalog)
    (payload : CheckoutIn)
    (hfound : ∀ i ∈ payload.items, (catalog i.product_id).isSome) :
    resolveLoop catalog payload.items =
      .ok (payload.items.map (toLine catalog),
           rawSubtotal catalog payload.items) ∧
    ((∃ i ∈ payload.items, i.quantity < 1) →
      ∃ msg, checkout catalog payload = .error (.badRequest msg)) := by
  refine ⟨resolveLoop_all_found catalog payload.items hfound, ?_⟩
  intro hex
  have hlines : ∃ li ∈ payload.items.map (toLine catalog), li.quantity < 1 := by
    obtain ⟨i, hi, hq⟩ := hex
    exact ⟨toLine catalog i, List.mem_map_of_mem _ hi, hq⟩
  obtain ⟨msg, hmsg⟩ := mkOrder_err (payload.items.map (toLine catalog))
    payload.customer
    (round2 (rawSubtotal catalog payload.items))
    (if rawSubtotal catalog payload.items < 75 then 5 else 0)
    (round2 (rawSubtotal catalog payload.items +
      (if rawSubtotal catalog payload.items < 75 then 5 else 0)))
    hlines
  refine ⟨msg, ?_⟩
  unfold checkout
  rw [resolveLoop_all_found catalog payload.items hfound]
  simp only []
  rw [hmsg]

/-- C8: the diagnostics handler is a total function of the store state —
every failure mode, including a disconnected handle and a failing
collection listing, is surfaced as degraded-status content in the body
rather than as an error. -/
theorem test_database_never_throws (db : Option DBHandle) :
    (test_database db).backend = "✅ Running" ∧
    (db = none → test_database db =
      { backend := "✅ Running", database := "❌ Not Available",
        database_url := none, database_name := none,
        connection_status := "Not Connected", collections := [] }) ∧
    (∀ h : DBHandle, db = some h →
      (test_database db).database = "✅ Connected" ∧
      ∀ e, h.collection_names = .error e →
        (test_database db).collections = []) := by
  rcases db with _ | h
  · refine ⟨rfl, fun _ => rfl, ?_⟩
    intro h2 hc
    cases hc
  · refine ⟨?_, ?_, ?_⟩
    · rcases hcoll : h.collection_names with e | cols <;>
        simp [test_database, hcoll]
    · intro hc
      cases hc
    · intro h2 hh
      have hh2 : h2 = h := (Option.some.inj hh).symm
      subst hh2
      rcases hcoll : h2.collection_names with e | cols
      · exact ⟨by simp [test_database, hcoll],
          fun e2 _ => by simp [test_database, hcoll]⟩
      · refine ⟨by simp [test_database, hcoll], ?_⟩
        intro e2 habs
        exact Except.noConfusion habs

/-- C10: when every cart product is found with a nonnegative unit price
and quantities are at least 1, a product document lacking a price field
does not make checkout fail: its resolved line's unit price defaults to 0,
the line contributes 0 to the subtotal, and the checkout succeeds. -/
theorem missing_price_defaults_to_zero (catalog : Catalog)
    (payload : CheckoutIn)
    (hfound : ∀ i ∈ payload.items, (catalog i.product_id).isSome)
    (hqty : ∀ i ∈ payload.items, 1 ≤ i.quantity)
    (hprice : ∀ i ∈ payload.items, 0 ≤ unitPrice catalog i.product_id) :
    (∃ order resp, checkout catalog payload = .ok (order, resp)) ∧
    ∀ i ∈ payload.items, ∀ prod, catalog i.product_id = some prod →
      prod.price = none →
      (toLine catalog i).price_each = 0 ∧
      unitPrice catalog i.product_id * (i.quantity : ℚ) = 0 := by
  refine ⟨⟨_, _, checkout_ok_of_valid catalog payload hfound hqty hprice⟩, ?_⟩
  intro i hi prod hprod hnone
  have hunit : unitPrice catalog i.product_id = 0 := by
    simp [unitPrice, hprod, hnone]
  exact ⟨by simp [toLine, hunit], by rw [hunit, zero_mul]⟩

/-- C5: listing styles on an empty catalog seeds exactly the three fixed
default styles (Carbon Fiber, Aluminum, Titanium) under consecutive fresh
internal ids, returns exactly those records, and every returned record
carries its internal id only as the string `id` field. -/
theorem list_styles_seeds_when_empty (s : StyleStore) (hempty : s.docs = []) :
    (list_styles s).1.docs.map Prod.snd = seedStyles ∧
    (list_styles s).1.docs.map Prod.fst =
      [s.nextId, s.nextId + 1, s.nextId + 2] ∧
    seedStyles.length = 3 ∧
    (list_styles s).2 = (list_styles s).1.docs.map projectStyle ∧
    ∀ p : ℕ × WalletStyle, (projectStyle p).id = toString p.1 := by
  obtain ⟨docs, nextId⟩ := s
  have hd : docs = [] := hempty
  subst hd
  exact ⟨rfl, rfl, rfl, rfl, fun p => rfl⟩

theorem round2_zero : round2 0 = 0 := by
  have h := round2_int_div 0
  simpa using h

theorem round2_five : round2 5 = 5 := by
  have h := round2_int_div 500
  norm_num at h
  exact h

/-- C9: a checkout with an empty items list succeeds and writes an order
with subtotal 0, shipping 5 and total 5, and the response amount is 5 —
the empty cart is not rejected and is charged the flat shipping fee. -/
theorem checkout_empty_cart (catalog : Catalog) (customer : CustomerIn) :
    checkout catalog { items := [], customer := customer } =
      .ok ({ items := [], customer := customer, subtotal := 0, shipping := 5,
             total := 5, status := "pending" },
           { status := "pending", amount := 5 }) := by
  have h := checkout_ok_of_valid catalog { items := [], customer := customer }
    (by intro i hi; cases hi) (by intro i hi; cases hi) (by intro i hi; cases hi)
  rw [h]
  have hraw : rawSubtotal catalog ([] : List CartItemIn) = 0 := rfl
  norm_num [hraw, round2_zero, round2_five]

section ConcreteEvaluation

attribute [local semireducible] Rat.mul Rat.add Rat.sub Rat.inv

/-- C4: the free-shipping boundary is exclusive on the low side: any
successful checkout with raw subtotal exactly 75 has shipping 0, any with
raw subtotal strictly below 75 has shipping 5; and concretely one carbon
wallet at catalog price 59, quantity 1, yields subtotal 59, shipping 5,
total 64. -/
theorem shipping_boundary_exclusive :
    (∀ (catalog : Catalog) (payload : CheckoutIn) (order : Order)
        (resp : CheckoutResp),
      checkout catalog payload = .ok (order, resp) →
      (rawSubtotal catalog payload.items = 75 → order.shipping = 0) ∧
      (rawSubtotal catalog payload.items < 75 → order.shipping = 5)) ∧
    checkout cat59 payload59 =
      .ok (order59, { status := "pending", amount := 64 }) ∧
    order59.subtotal = 59 ∧ order59.shipping = 5 ∧ order59.total = 64 := by
  refine ⟨?_, by decide, rfl, rfl, rfl⟩
  intro catalog payload order resp h
  obtain ⟨_, h2, _⟩ := checkout_ok_spec catalog payload order resp h
  constructor
  · intro h75
    rw [h2, h75, if_neg (lt_irrefl (75 : ℚ))]
  · intro hlt
    rw [h2, if_pos hlt]

/-- C7 counterexample: against the stated claim, a cart item with an
existing product and quantity 0 does not let the checkout complete: the
handler aborts with the 400 validation error raised at `Order`
construction. -/
theorem checkout_qty0_aborts :
    checkout cat59 payloadQty0 =
      .error (.badRequest "Input should be greater than or equal to 1") := by
  decide

/-- Witness for C1 at a concrete catalog and cart. -/
theorem checkout_two_stage_rounding_witness :
    checkout cat59 payload59 =
      .ok (order59, { status := "pending", amount := 64 }) ∧
    (order59.subtotal = round2 (rawSubtotal cat59 payload59.items) ∧
     order59.shipping =
       (if rawSubtotal cat59 payload59.items < 75 then (5 : ℚ) else 0) ∧
     order59.total = round2 (rawSubtotal cat59 payload59.items +
       (if rawSubtotal cat59 payload59.items < 75 then (5 : ℚ) else 0))) := by
  have hc : checkout cat59 payload59 =
      .ok (order59, { status := "pending", amount := 64 }) := by decide
  exact ⟨hc, checkout_two_stage_rounding cat59 payload59 order59
    { status := "pending", amount := 64 } hc⟩

/-- Witness for C2 at a concrete cart referencing a missing id. -/
theorem checkout_missing_product_aborts_witness :
    ∃ pid, cat59 pid = none ∧
      pid ∈ payloadGhost.items.map (fun i => i.product_id) ∧
      checkout cat59 payloadGhost = .error (.notFound pid) ∧
      (CheckoutErr.notFound pid).detail = "Product not found: " ++ pid ∧
      ∀ store : List Order,
        runCheckout store cat59 payloadGhost =
          (store, .error (.notFound pid)) :=
  checkout_missing_product_aborts cat59 payloadGhost (by decide)

/-- Witness for C3 at a concrete catalog and cart. -/
theorem checkout_total_from_rounded_subtotal_witness :
    order59.shipping =
      (if rawSubtotal cat59 payload59.items < 75 then (5 : ℚ) else 0) ∧
    order59.total = round2 (round2 (rawSubtotal cat59 payload59.items) +
      order59.shipping) :=
  checkout_total_from_rounded_subtotal cat59 payload59 order59
    { status := "pending", amount := 64 } (by decide)

/-- Witness for C4: the concrete 59-priced cart pays shipping 5. -/
theorem shipping_boundary_exclusive_witness : order59.shipping = 5 := by
  have h := shipping_boundary_exclusive.1 cat59 payload59 order59
    { status := "pending", amount := 64 } (by decide)
  exact h.2 (by decide)

/-- Witness for C5 at the empty store with first fresh id 0. -/
theorem list_styles_seeds_when_empty_witness :
    (list_styles { docs := [], nextId := 0 }).1.docs.map Prod.snd =
      seedStyles ∧
    (list_styles { docs := [], nextId := 0 }).1.docs.map Prod.fst =
      [0, 1, 2] ∧
    seedStyles.length = 3 ∧
    (list_styles { docs := [], nextId := 0 }).2 =
      (list_styles { docs := [], nextId := 0 }).1.docs.map projectStyle ∧
    ∀ p : ℕ × WalletStyle, (projectStyle p).id = toString p.1 :=
  list_styles_seeds_when_empty { docs := [], nextId := 0 } rfl

/-- Witness for C6 on a concrete two-byte payload. -/
theorem upload_size_and_b64_roundtrip_witness :
    (upload_art "art.png" none [77, 97]).size = 2 ∧
    b64decode (upload_art "art.png" none [77, 97]).data_b64 =
      some [77, 97] := by
  have h := upload_size_and_b64_roundtrip "art.png" none [77, 97] (by decide)
  exact ⟨h.1.trans (by decide), h.2⟩

/-- Witness for the amended C7 at the concrete quantity-0 cart. -/
theorem quantity_checked_only_at_order_validation_witness :
    resolveLoop cat59 payloadQty0.items =
      .ok (payloadQty0.items.map (toLine cat59),
           rawSubtotal cat59 payloadQty0.items) ∧
    (∃ msg, checkout cat59 payloadQty0 = .error (.badRequest msg)) := by
  have h := quantity_checked_only_at_order_validation cat59 payloadQty0
    (by decide)
  exact ⟨h.1, h.2 (by decide)⟩

/-- Witness for C8 at the disconnected store state. -/
theorem test_database_never_throws_witness :
    (test_database none).backend = "✅ Running" ∧
    test_database none =
      { backend := "✅ Running", database := "❌ Not Available",
        database_url := none, database_name := none,
        connection_status := "Not Connected", collections := [] } := by
  have h := test_database_never_throws none
  exact ⟨h.1, h.2.1 rfl⟩

/-- Witness for C10 at a concrete catalog whose document has no price. -/
theorem missing_price_defaults_to_zero_witness :
    (∃ order resp, checkout catNoPrice payloadNoPrice = .ok (order, resp)) ∧
    ∀ i ∈ payloadNoPrice.items, ∀ prod,
      catNoPrice i.product_id = some prod → prod.price = none →
      (toLine catNoPrice i).price_each = 0 ∧
      unitPrice catNoPrice i.product_id * (i.quantity : ℚ) = 0 :=
  missing_price_defaults_to_zero catNoPrice payloadNoPrice
    (by decide) (by decide) (by decide)

end ConcreteEvaluation

end Wallets
